import Mathlib

/-!
Verification of the PR-description generator (`git-pr-assistant`).

This file gives a shallow embedding, in Lean 4, of the orchestration core of
the extension: the prompt builder, the AWS Bedrock multi-candidate fallback
loop, the backend factory, the Gemini model-id normalisation, the Bedrock
response-shape parsing, the Copilot streaming accumulation and error mapping,
and the command-level orchestrators of `extension.ts` and of the earlier
revision of that file.  Asynchronous provider calls are modelled as explicit
function parameters returning `Except`; JavaScript truthiness on optional
configuration strings is modelled explicitly.
-/

/-- The ordered Claude model candidate list of `AIService`
(`src/aiService.ts` lines 13-20), most preferred first. -/
def CLAUDE_MODELS : List String :=
  ["anthropic.claude-3-5-sonnet-20241022-v2:0",
   "anthropic.claude-3-sonnet-20240229-v1:0",
   "anthropic.claude-3-haiku-20240307-v1:0",
   "anthropic.claude-instant-v1",
   "anthropic.claude-v2",
   "anthropic.claude-v2:1"]

/-- The prompt part lines of `AIService.createPrompt`
(`src/aiService.ts` lines 88-105), verbatim. -/
def promptParts (gitDiff template : String) : List String :=
  ["I need you to create a pull request description based on the following git diff.",
   "Use the template provided below to structure your response.",
   "",
   "GIT DIFF:",
   "```",
   gitDiff,
   "```",
   "",
   "TEMPLATE:",
   "```",
   template,
   "```",
   "",
   "Please fill in the template with details about the changes in the git diff. Be concise and clear about the purpose of the changes, what was modified, and any important details reviewers should know.",
   "",
   "Don't include the template markers (like \"## Summary\") in places they don't belong, and maintain the overall structure of the template. Complete sentences are preferred."]

/-- `AIService.createPrompt` (`src/aiService.ts` lines 87-108): the parts
joined with a newline (`promptParts.join("\n")`).  The same prompt text is
built by `BaseAIService.createPrompt` and `CopilotAIService.createPrompt`. -/
def createPrompt (gitDiff template : String) : String :=
  String.intercalate "\n" (promptParts gitDiff template)

/-- Everything of the rendered prompt that precedes the diff text: the task
restatement and the opening of the diff fence. -/
def promptHead : String :=
  "I need you to create a pull request description based on the following git diff.\nUse the template provided below to structure your response.\n\nGIT DIFF:\n```\n"

/-- Everything of the rendered prompt between the diff text and the template
text: the close of the diff fence and the opening of the template fence. -/
def promptMid : String :=
  "\n```\n\nTEMPLATE:\n```\n"

/-- Everything of the rendered prompt that follows the template text: the
close of the template fence and the formatting instructions. -/
def promptTail : String :=
  "\n```\n\nPlease fill in the template with details about the changes in the git diff. Be concise and clear about the purpose of the changes, what was modified, and any important details reviewers should know.\n\nDon't include the template markers (like \"## Summary\") in places they don't belong, and maintain the overall structure of the template. Complete sentences are preferred."

set_option maxRecDepth 8192 in
/-- Claim C2: for every diff and template, the rendered prompt is exactly the
task restatement, then the diff verbatim inside a triple-backtick fence, then
the template verbatim inside a triple-backtick fence, then the formatting
instructions; in particular the literal diff text and the literal template
text occur as substrings of the output. -/
theorem createPrompt_structure (gitDiff template : String) :
    createPrompt gitDiff template
      = promptHead ++ gitDiff ++ promptMid ++ template ++ promptTail := by
  simp only [createPrompt, promptParts, String.intercalate, String.intercalate.go,
    promptHead, promptMid, promptTail]
  simp only [String.append_assoc]
  rfl

/-- Models JavaScript `String.prototype.trim` (used as `.trim()` on every
generated text before it is returned): removes whitespace from both ends of
the string.  Defined by structural recursion on the character list so that it
evaluates inside proofs. -/
def jsTrim (s : String) : String :=
  ⟨((s.data.dropWhile Char.isWhitespace).reverse.dropWhile Char.isWhitespace).reverse⟩

/-- The candidate fallback loop of `AIService.generatePRDescription`
(`src/aiService.ts` lines 53-78), instrumented with the list of candidate
model ids actually attempted, in order.  `invoke m` models the awaited
`generateText` call for candidate `m`: `.ok text` is a successful call
returning `result.text`, `.error msg` a raised error whose message is `msg`.
On success the source returns `result.text.trim()` at once; on an error it
remembers the error as `lastError` and continues with the next candidate;
after the loop it throws
`Failed to generate PR description with any Claude model: <lastError.message>`
(interpolating the JavaScript `undefined` when no error was recorded). -/
def tryModels (invoke : String → Except String String) :
    List String → Option String → List String × Except String String
  | [], lastError =>
    ([], .error ("Failed to generate PR description with any Claude model: "
        ++ lastError.getD "undefined"))
  | m :: rest, _lastError =>
    match invoke m with
    | .ok t => ([m], .ok (jsTrim t))
    | .error e =>
      let r := tryModels invoke rest (some e)
      (m :: r.1, r.2)

/-- `AIService.generatePRDescription` (`src/aiService.ts` lines 44-79):
builds the prompt from the diff and the template, then runs the candidate
fallback loop over `CLAUDE_MODELS`.  The provider call is abstracted as
`invoke modelId prompt`; the first component of the result is the invocation
trace, the second the source's returned text or thrown error message. -/
def AIService.generatePRDescription (invoke : String → String → Except String String)
    (gitDiff template : String) : List String × Except String String :=
  let prompt := createPrompt gitDiff template
  tryModels (fun m => invoke m prompt) CLAUDE_MODELS none

lemma tryModels_first_success (invoke : String → Except String String) :
    ∀ (pre : List String) (m : String) (post : List String) (txt : String)
      (lastError : Option String),
      (∀ m' ∈ pre, ∃ e, invoke m' = .error e) →
      invoke m = .ok txt →
      tryModels invoke (pre ++ m :: post) lastError = (pre ++ [m], .ok (jsTrim txt))
  | [], m, post, txt, lastError, _, hm => by
      simp [tryModels, hm]
  | a :: pre, m, post, txt, lastError, hpre, hm => by
      obtain ⟨e, he⟩ := hpre a (by simp)
      have ih := tryModels_first_success invoke pre m post txt (some e)
        (fun m' hm' => hpre m' (by simp [hm'])) hm
      simp [tryModels, he, ih]

/-- Claim C1: the multi-candidate AWS Bedrock adapter attempts the model
candidates strictly in the declared priority order, each candidate at most
once; it returns the (trimmed) text of the first candidate whose invocation
succeeds, attempting no further candidates; and when every candidate's
invocation raises, it throws an error whose message is the fixed prefix
followed by the text of the last raised error. -/
theorem aiService_candidate_fallback (invoke : String → String → Except String String)
    (gitDiff template : String) :
    (∀ pre m post txt, CLAUDE_MODELS = pre ++ m :: post →
        (∀ m' ∈ pre, ∃ e, invoke m' (createPrompt gitDiff template) = .error e) →
        invoke m (createPrompt gitDiff template) = .ok txt →
        AIService.generatePRDescription invoke gitDiff template = (pre ++ [m], .ok (jsTrim txt)))
    ∧ (∀ elast,
        (∀ m ∈ CLAUDE_MODELS, ∃ e, invoke m (createPrompt gitDiff template) = .error e) →
        invoke "anthropic.claude-v2:1" (createPrompt gitDiff template) = .error elast →
        AIService.generatePRDescription invoke gitDiff template
          = (CLAUDE_MODELS,
             .error ("Failed to generate PR description with any Claude model: " ++ elast)))
    ∧ CLAUDE_MODELS.Nodup := by
  refine ⟨?_, ?_, by decide⟩
  · intro pre m post txt hdecomp hpre hm
    unfold AIService.generatePRDescription
    rw [show CLAUDE_MODELS = pre ++ m :: post from hdecomp]
    exact tryModels_first_success _ pre m post txt none hpre hm
  · intro elast hall hlast
    obtain ⟨e1, h1⟩ := hall "anthropic.claude-3-5-sonnet-20241022-v2:0" (by decide)
    obtain ⟨e2, h2⟩ := hall "anthropic.claude-3-sonnet-20240229-v1:0" (by decide)
    obtain ⟨e3, h3⟩ := hall "anthropic.claude-3-haiku-20240307-v1:0" (by decide)
    obtain ⟨e4, h4⟩ := hall "anthropic.claude-instant-v1" (by decide)
    obtain ⟨e5, h5⟩ := hall "anthropic.claude-v2" (by decide)
    simp [AIService.generatePRDescription, CLAUDE_MODELS, tryModels,
      h1, h2, h3, h4, h5, hlast]

/-- A stubbed provider call where the first Bedrock candidate raises and
every later candidate succeeds. -/
def c1InvokeStub : String → String → Except String String :=
  fun modelId _prompt =>
    if modelId = "anthropic.claude-3-5-sonnet-20241022-v2:0" then
      .error "ThrottlingException: rate exceeded"
    else .ok " A generated PR description "

/-- A stubbed provider call where every Bedrock candidate raises. -/
def c1InvokeFailStub : String → String → Except String String :=
  fun modelId _prompt => .error ("AccessDeniedException for " ++ modelId)

/-- Witness for C1 at concrete inputs: with the first candidate raising and
the second succeeding, exactly the first two candidates are attempted and the
second candidate's trimmed text is returned; with every candidate raising,
all six are attempted and the thrown message ends in the last raised error. -/
theorem aiService_candidate_fallback_witness :
    AIService.generatePRDescription c1InvokeStub "some diff" "some template"
      = (["anthropic.claude-3-5-sonnet-20241022-v2:0",
          "anthropic.claude-3-sonnet-20240229-v1:0"],
         .ok "A generated PR description")
    ∧ AIService.generatePRDescription c1InvokeFailStub "some diff" "some template"
      = (CLAUDE_MODELS,
         .error "Failed to generate PR description with any Claude model: AccessDeniedException for anthropic.claude-v2:1") := by
  constructor
  · have h := (aiService_candidate_fallback c1InvokeStub "some diff" "some template").1
      ["anthropic.claude-3-5-sonnet-20241022-v2:0"]
      "anthropic.claude-3-sonnet-20240229-v1:0"
      ["anthropic.claude-3-haiku-20240307-v1:0", "anthropic.claude-instant-v1",
       "anthropic.claude-v2", "anthropic.claude-v2:1"]
      " A generated PR description "
      (by decide)
      (by
        intro m' hm'
        have hm'' : m' = "anthropic.claude-3-5-sonnet-20241022-v2:0" := by
          simpa using hm'
        exact ⟨"ThrottlingException: rate exceeded", by rw [hm'']; rfl⟩)
      (by rfl)
    rw [h]; rfl
  · have h := (aiService_candidate_fallback c1InvokeFailStub "some diff" "some template").2.1
      "AccessDeniedException for anthropic.claude-v2:1"
      (fun m _hm => ⟨"AccessDeniedException for " ++ m, rfl⟩)
      rfl
    rw [h]; rfl

/-- The `AWSBedrockService` instance state (`src/aiService.ts` lines 166-195):
the constructor stores the four credential fields. -/
structure AWSBedrockService where
  region : String
  accessKeyId : String
  secretAccessKey : String
  sessionToken : Option String
deriving DecidableEq, Repr

/-- The `GoogleGeminiService` instance state (`src/aiService.ts` lines
259-285): the constructor stores the api key and the (validated) model id. -/
structure GoogleGeminiService where
  apiKey : String
  modelId : String
deriving DecidableEq, Repr

/-- `GoogleGeminiService.SUPPORTED_MODELS` (`src/aiService.ts` lines
264-268). -/
def GoogleGeminiService.SUPPORTED_MODELS : List String :=
  ["gemini-2.0-flash-exp",
   "gemini-1.5-flash",
   "gemini-1.5-flash-8b"]

/-- The `GoogleGeminiService` constructor (`src/aiService.ts` lines 275-285):
the optional `modelId` argument defaults to `gemini-1.5-flash`; an argument
outside `SUPPORTED_MODELS` is replaced by `gemini-1.5-flash` (with a console
warning) rather than rejected. -/
def GoogleGeminiService.construct (apiKey : String) (modelId : Option String) :
    GoogleGeminiService :=
  let mid := modelId.getD "gemini-1.5-flash"
  if GoogleGeminiService.SUPPORTED_MODELS.contains mid then
    { apiKey := apiKey, modelId := mid }
  else
    { apiKey := apiKey, modelId := "gemini-1.5-flash" }

/-- The adapter instances the factory can return (the `AIProvider`
implementations of `src/aiService.ts`). -/
inductive AIProviderInstance where
  | awsBedrock (s : AWSBedrockService)
  | googleGemini (s : GoogleGeminiService)
deriving DecidableEq, Repr

/-- The configuration bag handed to the factory (`config: any` in
`src/aiService.ts` line 344); absent fields are `none`. -/
structure FactoryConfig where
  region : String := ""
  accessKeyId : String := ""
  secretAccessKey : String := ""
  sessionToken : Option String := none
  apiKey : String := ""
  modelId : Option String := none
deriving DecidableEq, Repr

/-- `AIServiceFactory.createService` (`src/aiService.ts` lines 342-359): the
switch over the provider selector constructs the matching adapter, and any
other selector throws `Unsupported AI provider: <provider>`.  The function is
pure: it performs no provider call. -/
def AIServiceFactory.createService (provider : String) (config : FactoryConfig) :
    Except String AIProviderInstance :=
  if provider = "aws-bedrock" then
    .ok (.awsBedrock
      { region := config.region,
        accessKeyId := config.accessKeyId,
        secretAccessKey := config.secretAccessKey,
        sessionToken := config.sessionToken })
  else if provider = "google-gemini" then
    .ok (.googleGemini (GoogleGeminiService.construct config.apiKey config.modelId))
  else
    .error ("Unsupported AI provider: " ++ provider)

/-- Claim C3: the backend registry returns a constructed adapter instance for
every recognized selector tag (`aws-bedrock` yields the AWS Bedrock adapter,
`google-gemini` the Gemini adapter), and for any other selector it fails
immediately with an error naming the selector; no I/O is performed before
this validation (the factory is a pure function of its arguments). -/
theorem createService_registry_closure (config : FactoryConfig) :
    AIServiceFactory.createService "aws-bedrock" config
      = .ok (.awsBedrock
          { region := config.region,
            accessKeyId := config.accessKeyId,
            secretAccessKey := config.secretAccessKey,
            sessionToken := config.sessionToken })
    ∧ AIServiceFactory.createService "google-gemini" config
      = .ok (.googleGemini (GoogleGeminiService.construct config.apiKey config.modelId))
    ∧ (∀ provider, provider ≠ "aws-bedrock" → provider ≠ "google-gemini" →
        AIServiceFactory.createService provider config
          = .error ("Unsupported AI provider: " ++ provider)) := by
  refine ⟨rfl, rfl, ?_⟩
  intro provider h1 h2
  simp [AIServiceFactory.createService, h1, h2]

/-- Witness for C3 at concrete inputs: both recognized tags yield adapter
instances, and the unrecognized tag `unknown-backend` yields the
`Unsupported AI provider` error naming it. -/
theorem createService_registry_closure_witness :
    AIServiceFactory.createService "aws-bedrock" {}
      = .ok (.awsBedrock { region := "", accessKeyId := "", secretAccessKey := "",
                           sessionToken := none })
    ∧ AIServiceFactory.createService "google-gemini" {}
      = .ok (.googleGemini { apiKey := "", modelId := "gemini-1.5-flash" })
    ∧ AIServiceFactory.createService "unknown-backend" {}
      = .error "Unsupported AI provider: unknown-backend" := by
  obtain ⟨h1, h2, h3⟩ := createService_registry_closure {}
  refine ⟨h1, ?_, ?_⟩
  · rw [h2]; rfl
  · rw [h3 "unknown-backend" (by decide) (by decide)]; rfl

/-- Claim C10: invariant of the Gemini adapter — every constructed
`GoogleGeminiService` has a `modelId` in the fixed supported set; a
constructor argument outside this set is silently replaced by the default
`gemini-1.5-flash` rather than rejected, and a supported argument is kept. -/
theorem geminiService_modelId_invariant (apiKey : String) (modelId : Option String) :
    (GoogleGeminiService.construct apiKey modelId).modelId
        ∈ GoogleGeminiService.SUPPORTED_MODELS
    ∧ (∀ m, modelId = some m → m ∉ GoogleGeminiService.SUPPORTED_MODELS →
        (GoogleGeminiService.construct apiKey modelId).modelId = "gemini-1.5-flash")
    ∧ (∀ m, modelId = some m → m ∈ GoogleGeminiService.SUPPORTED_MODELS →
        (GoogleGeminiService.construct apiKey modelId).modelId = m) := by
  refine ⟨?_, ?_, ?_⟩
  · by_cases h : modelId.getD "gemini-1.5-flash" ∈ GoogleGeminiService.SUPPORTED_MODELS
    · simp [GoogleGeminiService.construct, h]
    · simp only [GoogleGeminiService.construct]
      have hc : GoogleGeminiService.SUPPORTED_MODELS.contains
          (modelId.getD "gemini-1.5-flash") = false := by
        simpa using h
      simp only [hc, Bool.false_eq_true, if_false]
      decide
  · intro m hm hnot
    subst hm
    simp [GoogleGeminiService.construct, hnot]
  · intro m hm hmem
    subst hm
    simp [GoogleGeminiService.construct, hmem]

/-- Witness for C10 at concrete inputs: the unsupported argument
`gemini-ultra` is replaced by the default, and the supported argument
`gemini-2.0-flash-exp` is kept. -/
theorem geminiService_modelId_invariant_witness :
    (GoogleGeminiService.construct "key" (some "gemini-ultra")).modelId
        = "gemini-1.5-flash"
    ∧ (GoogleGeminiService.construct "key" (some "gemini-2.0-flash-exp")).modelId
        = "gemini-2.0-flash-exp" := by
  constructor
  · exact (geminiService_modelId_invariant "key" (some "gemini-ultra")).2.1
      "gemini-ultra" rfl (by decide)
  · exact (geminiService_modelId_invariant "key" (some "gemini-2.0-flash-exp")).2.2
      "gemini-2.0-flash-exp" rfl (by decide)

/-- JavaScript `x || d` on an optional configuration string (`config.get`
returning `undefined` is `none`): `undefined` and the empty string are falsy
and give the default. -/
def jsOrDefault (v : Option String) (d : String) : String :=
  match v with
  | none => d
  | some s => if s.isEmpty then d else s

/-- JavaScript falsiness of an optional string (the `!x` checks on
configuration values): true for `undefined` and for the empty string. -/
def optStrFalsy (v : Option String) : Bool :=
  match v with
  | none => true
  | some s => s.isEmpty

/-- What one run of the `generatePRDescription` command surfaces to the
user. -/
inductive Outcome where
  /-- `vscode.window.showInformationMessage`, a no-op completion. -/
  | info (msg : String)
  /-- `vscode.window.showErrorMessage` with no action item. -/
  | errorMsg (msg : String)
  /-- `vscode.window.showErrorMessage` offering the `Configure` action item
  that runs the `configureProvider` command. -/
  | errorWithConfigureItem (msg : String)
  /-- the generated description, opened as a new markdown document. -/
  | document (text : String)
deriving DecidableEq, Repr

/-- One run of the command: the surfaced outcome, whether an adapter
instance was constructed, and whether the backend was invoked. -/
structure CommandRun where
  outcome : Outcome
  adapterConstructed : Bool
  backendInvoked : Bool
deriving DecidableEq, Repr

/-- The no-staged-changes message (`src/extension.ts` line 184). -/
def noStagedChangesMsg : String :=
  "No staged changes detected. Make sure you have staged changes using \"git add\" command."

/-- The no-commit-changes message (`src/extension.ts` line 186) with the
configured commit count interpolated. -/
def noCommitChangesMsg (commitCount : Nat) : String :=
  "No changes found in the last " ++ toString commitCount
    ++ " commit(s). Try increasing the commit count."

/-- The missing-Copilot-model message (`src/extension.ts` line 218). -/
def noCopilotModelSelectedMsg : String :=
  "No Copilot model selected. Please configure a model in the extension settings."

/-- The Copilot-model-unavailable message (`src/extension.ts` line 235). -/
def copilotModelUnavailableMsg : String :=
  "Selected Copilot model not available. Please ensure you have an active GitHub Copilot subscription and select a valid model."

/-- The `generatePRDescription` command of `src/extension.ts` (lines
164-275, the Copilot-based revision).  External collaborators are passed as
arguments: `diff` is the result of `GitDiffReader.getDiff`, `template` the
result of the template source, `selectedModelId` the `copilotModelId`
configuration value, `getModelById` the host capability lookup (a model is
represented by its id), and `generate` the Copilot adapter invocation.  The
null-diff check precedes every configuration check, and both precede adapter
construction and invocation. -/
def Extension.generatePRCommand
    (diff : Option String) (diffSource : String) (commitCount : Nat)
    (template : String) (selectedModelId : Option String)
    (getModelById : String → Option String)
    (generate : String → String → String → Except String String) : CommandRun :=
  match diff with
  | none =>
    if diffSource = "staged" then
      ⟨.info noStagedChangesMsg, false, false⟩
    else
      ⟨.info (noCommitChangesMsg commitCount), false, false⟩
  | some d =>
    if optStrFalsy selectedModelId then
      ⟨.errorWithConfigureItem noCopilotModelSelectedMsg, false, false⟩
    else
      match getModelById (selectedModelId.getD "") with
      | none => ⟨.errorWithConfigureItem copilotModelUnavailableMsg, false, false⟩
      | some model =>
        match generate model d template with
        | .ok description =>
          if description.isEmpty then
            ⟨.errorMsg "Failed to generate PR description.", true, true⟩
          else
            ⟨.document description, true, true⟩
        | .error e =>
          ⟨.errorMsg ("Error generating PR description: " ++ e), true, true⟩

/-- The missing-AWS-credentials message (`src/unnamed/part_002` line 433). -/
def part002AwsCredsMsg : String :=
  "AWS credentials not configured. Please use the Configure AWS Credentials command first."

/-- The missing-Google-key message (`src/unnamed/part_002` line 451). -/
def part002GoogleKeyMsg : String :=
  "Google API key not configured. Please use the Configure Google Credentials command first."

/-- The tail of the `generatePRDescription` command of `src/unnamed/part_002`
(lines 464-483): invoke the constructed service and surface the result; a
thrown error is caught and shown as `Error generating PR description: ...`. -/
def Part002.invokeService (svc : Except String AIProviderInstance)
    (generate : AIProviderInstance → String → String → Except String String)
    (d template : String) : CommandRun :=
  match svc with
  | .error e => ⟨.errorMsg ("Error generating PR description: " ++ e), false, false⟩
  | .ok adapter =>
    match generate adapter d template with
    | .ok description =>
      if description.isEmpty then
        ⟨.errorMsg "Failed to generate PR description.", true, true⟩
      else
        ⟨.document description, true, true⟩
    | .error e => ⟨.errorMsg ("Error generating PR description: " ++ e), true, true⟩

/-- The `generatePRDescription` command of `src/unnamed/part_002` (lines
370-491, the factory-based revision).  Configuration reads are passed as
optional strings; `config.get(...) || dflt` is modelled by `jsOrDefault`.
The AWS branch requires both credential fields and shows one combined
message when either is missing; the Gemini branch requires the api key. -/
def Part002.generatePRCommand
    (diff : Option String) (diffSource : String) (commitCount : Nat)
    (template : String)
    (modelProvider awsAccessKeyId awsSecretAccessKey awsRegion awsSessionToken
      googleApiKey googleGeminiModel : Option String)
    (generate : AIProviderInstance → String → String → Except String String) :
    CommandRun :=
  match diff with
  | none =>
    if diffSource = "staged" then
      ⟨.info noStagedChangesMsg, false, false⟩
    else
      ⟨.info (noCommitChangesMsg commitCount), false, false⟩
  | some d =>
    let provider := jsOrDefault modelProvider "aws-bedrock"
    if provider = "aws-bedrock" then
      let accessKeyId := jsOrDefault awsAccessKeyId ""
      let secretAccessKey := jsOrDefault awsSecretAccessKey ""
      let region := jsOrDefault awsRegion "us-east-1"
      let sessionToken := jsOrDefault awsSessionToken ""
      if accessKeyId.isEmpty || secretAccessKey.isEmpty then
        ⟨.errorMsg part002AwsCredsMsg, false, false⟩
      else
        Part002.invokeService
          (AIServiceFactory.createService "aws-bedrock"
            { region := region, accessKeyId := accessKeyId,
              secretAccessKey := secretAccessKey, sessionToken := some sessionToken })
          generate d template
    else if provider = "google-gemini" then
      let apiKey := jsOrDefault googleApiKey ""
      let modelId := jsOrDefault googleGeminiModel "gemini-1.5-flash"
      if apiKey.isEmpty then
        ⟨.errorMsg part002GoogleKeyMsg, false, false⟩
      else
        Part002.invokeService
          (AIServiceFactory.createService "google-gemini"
            { apiKey := apiKey, modelId := some modelId })
          generate d template
    else
      ⟨.errorMsg ("Unknown model provider: " ++ provider), false, false⟩

/-- Claim C4: when the diff source returns null, the orchestrator
short-circuits with a no-op informational outcome before constructing any
adapter or invoking any backend, and the message differs by selection mode:
for mode `staged` it is the no-staged-changes message, and for mode
`commits` with commit count N the message contains the decimal numeral of N
and the word `commit`. -/
theorem generatePRCommand_no_diff_short_circuit
    (commitCount : Nat) (template : String) (selectedModelId : Option String)
    (getModelById : String → Option String)
    (generate : String → String → String → Except String String) :
    Extension.generatePRCommand none "staged" commitCount template selectedModelId
        getModelById generate
      = ⟨.info noStagedChangesMsg, false, false⟩
    ∧ Extension.generatePRCommand none "commits" commitCount template selectedModelId
        getModelById generate
      = ⟨.info (noCommitChangesMsg commitCount), false, false⟩
    ∧ (∃ a b, noCommitChangesMsg commitCount = a ++ toString commitCount ++ b)
    ∧ (∃ a b, noCommitChangesMsg commitCount = a ++ "commit" ++ b)
    ∧ noStagedChangesMsg ≠ noCommitChangesMsg commitCount := by
  refine ⟨rfl, rfl,
    ⟨"No changes found in the last ",
     " commit(s). Try increasing the commit count.", rfl⟩,
    ⟨"No changes found in the last " ++ toString commitCount ++ " ",
     "(s). Try increasing the commit count.", ?_⟩, ?_⟩
  · simp only [noCommitChangesMsg, String.append_assoc]
    rfl
  · intro h
    have h3 : noStagedChangesMsg.data[3]? = (noCommitChangesMsg commitCount).data[3]? := by
      rw [h]
    rw [show noCommitChangesMsg commitCount
          = "No changes found in the last "
            ++ (toString commitCount ++ " commit(s). Try increasing the commit count.")
        from by simp [noCommitChangesMsg, String.append_assoc]] at h3
    rw [String.data_append,
      List.getElem?_append_left (by decide :
        (3 : Nat) < "No changes found in the last ".data.length)] at h3
    revert h3
    decide

/-- A stubbed adapter invocation for exercising the part_002 command. -/
def c7GenerateStub : AIProviderInstance → String → String → Except String String :=
  fun _ _ _ => .ok "generated description"

/-- Counterexample to C7 as stated: the missing-configuration outcome does
not identify which AWS field is absent.  With the access-key id present and
the secret key missing, and with the secret key present and the access-key
id missing, the command produces the identical combined outcome
`AWS credentials not configured...`, so the outcome cannot identify which of
the two fields is absent. -/
theorem aws_missing_field_not_identified_counterexample :
    Part002.generatePRCommand (some "diff") "staged" 1 "template"
        (some "aws-bedrock") (some "AKIAEXAMPLE") none none none none none
        c7GenerateStub
      = Part002.generatePRCommand (some "diff") "staged" 1 "template"
        (some "aws-bedrock") none (some "SECRETEXAMPLE") none none none none
        c7GenerateStub
    ∧ Part002.generatePRCommand (some "diff") "staged" 1 "template"
        (some "aws-bedrock") (some "AKIAEXAMPLE") none none none none none
        c7GenerateStub
      = ⟨.errorMsg part002AwsCredsMsg, false, false⟩ :=
  ⟨rfl, rfl⟩

/-- Claim C7 (amended): before constructing an adapter, the orchestrator
validates the selected backend's required configuration fields (both
access-key id and secret key for the AWS backend, a non-empty API key for
the Gemini backend, a non-empty selected-model identifier for the local
Copilot backend); if a required field is missing it fails with a
missing-configuration outcome identifying the selected backend's missing
credential category — for AWS a single combined message regardless of which
of the two keys is absent — points the user toward configuration, and never
constructs the adapter or invokes the backend.  The three messages are
pairwise distinct. -/
theorem missing_configuration_validation
    (d diffSource : String) (commitCount : Nat) (template : String)
    (awsAccessKeyId awsSecretAccessKey awsRegion awsSessionToken
      googleApiKey googleGeminiModel selectedModelId : Option String)
    (getModelById : String → Option String)
    (generateP : AIProviderInstance → String → String → Except String String)
    (generateC : String → String → String → Except String String) :
    ((jsOrDefault awsAccessKeyId "").isEmpty = true
        ∨ (jsOrDefault awsSecretAccessKey "").isEmpty = true →
      Part002.generatePRCommand (some d) diffSource commitCount template
          (some "aws-bedrock") awsAccessKeyId awsSecretAccessKey awsRegion
          awsSessionToken googleApiKey googleGeminiModel generateP
        = ⟨.errorMsg part002AwsCredsMsg, false, false⟩)
    ∧ ((jsOrDefault googleApiKey "").isEmpty = true →
      Part002.generatePRCommand (some d) diffSource commitCount template
          (some "google-gemini") awsAccessKeyId awsSecretAccessKey awsRegion
          awsSessionToken googleApiKey googleGeminiModel generateP
        = ⟨.errorMsg part002GoogleKeyMsg, false, false⟩)
    ∧ (optStrFalsy selectedModelId = true →
      Extension.generatePRCommand (some d) diffSource commitCount template
          selectedModelId getModelById generateC
        = ⟨.errorWithConfigureItem noCopilotModelSelectedMsg, false, false⟩)
    ∧ (∃ a b, part002AwsCredsMsg = a ++ "Configure" ++ b)
    ∧ (∃ a b, part002GoogleKeyMsg = a ++ "Configure" ++ b)
    ∧ (∃ a b, noCopilotModelSelectedMsg = a ++ "configure" ++ b)
    ∧ part002AwsCredsMsg ≠ part002GoogleKeyMsg
    ∧ part002GoogleKeyMsg ≠ noCopilotModelSelectedMsg
    ∧ part002AwsCredsMsg ≠ noCopilotModelSelectedMsg := by
  refine ⟨?_, ?_, ?_,
    ⟨"AWS credentials not configured. Please use the ",
     " AWS Credentials command first.", by decide⟩,
    ⟨"Google API key not configured. Please use the ",
     " Google Credentials command first.", by decide⟩,
    ⟨"No Copilot model selected. Please ",
     " a model in the extension settings.", by decide⟩,
    by decide, by decide, by decide⟩
  · intro h
    have hcond : ((jsOrDefault awsAccessKeyId "").isEmpty
        || (jsOrDefault awsSecretAccessKey "").isEmpty) = true :=
      Bool.or_eq_true _ _ |>.mpr h
    have hprov : jsOrDefault (some "aws-bedrock") "aws-bedrock" = "aws-bedrock" := by
      decide
    simp [Part002.generatePRCommand, hprov, hcond]
  · intro h
    have hprov : jsOrDefault (some "google-gemini") "aws-bedrock" = "google-gemini" := by
      decide
    simp [Part002.generatePRCommand, hprov, h]
  · intro h
    simp [Extension.generatePRCommand, h]

/-- Witness for C7 at concrete inputs: a missing AWS secret key, a missing
Google api key (empty string), and an unset Copilot model id each produce
the corresponding missing-configuration outcome with nothing constructed or
invoked. -/
theorem missing_configuration_validation_witness :
    Part002.generatePRCommand (some "diff") "staged" 1 "tpl"
        (some "aws-bedrock") (some "AKIAEXAMPLE") none none none none none
        c7GenerateStub
      = ⟨.errorMsg part002AwsCredsMsg, false, false⟩
    ∧ Part002.generatePRCommand (some "diff") "staged" 1 "tpl"
        (some "google-gemini") none none none none (some "") none
        c7GenerateStub
      = ⟨.errorMsg part002GoogleKeyMsg, false, false⟩
    ∧ Extension.generatePRCommand (some "diff") "staged" 1 "tpl" none
        (fun _ => none) (fun _ _ _ => .ok "text")
      = ⟨.errorWithConfigureItem noCopilotModelSelectedMsg, false, false⟩ := by
  obtain ⟨h1, -, -⟩ := missing_configuration_validation "diff" "staged" 1 "tpl"
    (some "AKIAEXAMPLE") none none none none none none (fun _ => none)
    c7GenerateStub (fun _ _ _ => .ok "text")
  obtain ⟨-, h2, -⟩ := missing_configuration_validation "diff" "staged" 1 "tpl"
    none none none none (some "") none none (fun _ => none)
    c7GenerateStub (fun _ _ _ => .ok "text")
  obtain ⟨-, -, h3, -⟩ := missing_configuration_validation "diff" "staged" 1 "tpl"
    none none none none none none none (fun _ => none)
    c7GenerateStub (fun _ _ _ => .ok "text")
  exact ⟨h1 (Or.inr rfl), h2 rfl, h3 rfl⟩

/-- Parsed JSON values: the shape of a parsed Bedrock response body
(`JSON.parse(response.body.toString())` in `src/unnamed/part_001` line
130).  A JavaScript property access that may yield `undefined` is modelled
as `Option Json`. -/
inductive Json where
  | null
  | bool (b : Bool)
  | num (n : Int)
  | str (s : String)
  | arr (elems : List Json)
  | obj (fields : List (String × Json))
deriving Repr

/-- JavaScript property read `v[k]` on a parsed JSON value: the named field
of an object, `undefined` (`none`) otherwise. -/
def Json.getField : Json → String → Option Json
  | .obj fields, k => fields.lookup k
  | _, _ => none

/-- JavaScript truthiness of a parsed JSON value. -/
def Json.truthy : Json → Bool
  | .null => false
  | .bool b => b
  | .num n => n != 0
  | .str s => !s.isEmpty
  | .arr _ => true
  | .obj _ => true

/-- `Array.isArray` on a parsed JSON value. -/
def Json.isArray : Json → Bool
  | .arr _ => true
  | _ => false

/-- Whether a parsed JSON value is JavaScript `null`. -/
def Json.isNull : Json → Bool
  | .null => true
  | _ => false

/-- One character of `JSON.stringify` string escaping (models the JavaScript
builtin: quote, backslash and newline are escaped). -/
def escapeChar (c : Char) : List Char :=
  if c = '"' then ['\\', '"']
  else if c = '\\' then ['\\', '\\']
  else if c = '\n' then ['\\', 'n']
  else [c]

/-- `JSON.stringify` escaping of a string (models the JavaScript builtin). -/
def jsonEscape (s : String) : String :=
  ⟨s.data.flatMap escapeChar⟩

mutual
/-- Models the JavaScript builtin `JSON.stringify` on a parsed JSON value
(used as the last-resort fallback in `src/unnamed/part_001` line 143). -/
def Json.stringify : Json → String
  | .null => "null"
  | .bool true => "true"
  | .bool false => "false"
  | .num n => toString n
  | .str s => "\"" ++ jsonEscape s ++ "\""
  | .arr elems => "[" ++ Json.stringifyElems elems ++ "]"
  | .obj fields => "\x7b" ++ Json.stringifyFields fields ++ "\x7d"

/-- Comma-separated serialisation of a JSON array's elements. -/
def Json.stringifyElems : List Json → String
  | [] => ""
  | [x] => Json.stringify x
  | x :: xs => Json.stringify x ++ "," ++ Json.stringifyElems xs

/-- Comma-separated serialisation of a JSON object's fields. -/
def Json.stringifyFields : List (String × Json) → String
  | [] => ""
  | [(k, v)] => "\"" ++ jsonEscape k ++ "\":" ++ Json.stringify v
  | (k, v) :: xs =>
    "\"" ++ jsonEscape k ++ "\":" ++ Json.stringify v ++ "," ++ Json.stringifyFields xs
end

/-- The condition of the first branch of the response parsing
(`src/unnamed/part_001` line 135):
`responseBody.content && Array.isArray(responseBody.content)`. -/
def hasContentArray (responseBody : Json) : Bool :=
  match responseBody.getField "content" with
  | some c => c.truthy && c.isArray
  | none => false

/-- The condition of the second branch (`src/unnamed/part_001` line 138):
`responseBody.completion` is truthy — in particular false when the
`completion` field holds the empty string. -/
def truthyCompletion (responseBody : Json) : Bool :=
  match responseBody.getField "completion" with
  | some c => c.truthy
  | none => false

/-- The response-text extraction of `generatePRDescription` in
`src/unnamed/part_001` (lines 133-144): modern `content[0].text` first,
truthy legacy `completion` second, `JSON.stringify(responseBody)` last.  The
JavaScript `TypeError` thrown by `responseBody.content[0].text` when the
content array is empty or its first element is null is modelled as
`.error`; the extracted JavaScript value (which is `undefined` when
`content[0]` has no `text` field) as `Option Json`. -/
def extractPRDescription (responseBody : Json) : Except String (Option Json) :=
  if hasContentArray responseBody then
    match responseBody.getField "content" with
    | some (.arr (x :: _)) =>
      if x.isNull then
        .error "TypeError: cannot read property text of null"
      else
        .ok (x.getField "text")
    | _ => .error "TypeError: cannot read property text of undefined"
  else if truthyCompletion responseBody then
    .ok (responseBody.getField "completion")
  else
    .ok (some (.str (Json.stringify responseBody)))

/-- Counterexample to C5 as stated: a response body whose `completion` field
holds the empty string *has* a `completion` field, yet the parsing does not
return that field — the JavaScript truthiness test skips the empty string
and the serialized response body is returned instead. -/
theorem extractPRDescription_empty_completion_counterexample :
    extractPRDescription (Json.obj [("completion", Json.str "")])
      = .ok (some (.str "\x7b\"completion\":\"\"\x7d"))
    ∧ ("\x7b\"completion\":\"\"\x7d" : String) ≠ "" :=
  ⟨rfl, by decide⟩

/-- Claim C5 (amended): if the body's `content` field is an array, the
result is `content[0].text` — a `TypeError` is thrown when that array is
empty (and when its first element is null); otherwise, if the body has a
*truthy* `completion` field (in particular a non-empty string), the result
is that field; otherwise — including when `completion` is present but holds
the empty string — the result is the full serialized response body, and
parsing does not throw on such unrecognized shapes. -/
theorem extractPRDescription_shape_fallback (responseBody : Json) :
    (∀ x xs, responseBody.getField "content" = some (.arr (x :: xs)) →
        x.isNull = false →
        extractPRDescription responseBody = .ok (x.getField "text"))
    ∧ (responseBody.getField "content" = some (.arr []) →
        extractPRDescription responseBody
          = .error "TypeError: cannot read property text of undefined")
    ∧ (hasContentArray responseBody = false →
        ∀ comp, responseBody.getField "completion" = some comp →
        comp.truthy = true →
        extractPRDescription responseBody = .ok (some comp))
    ∧ (hasContentArray responseBody = false →
        truthyCompletion responseBody = false →
        extractPRDescription responseBody
          = .ok (some (.str (Json.stringify responseBody)))) := by
  refine ⟨?_, ?_, ?_, ?_⟩
  · intro x xs h hx
    have harr : hasContentArray responseBody = true := by
      simp [hasContentArray, h, Json.truthy, Json.isArray]
    simp [extractPRDescription, harr, h, hx]
  · intro h
    have harr : hasContentArray responseBody = true := by
      simp [hasContentArray, h, Json.truthy, Json.isArray]
    simp [extractPRDescription, harr, h]
  · intro hno comp hc ht
    have htc : truthyCompletion responseBody = true := by
      simp [truthyCompletion, hc, ht]
    simp [extractPRDescription, hno, htc, hc]
  · intro hno htc
    simp [extractPRDescription, hno, htc]

/-- Witness for C5 at concrete inputs: the modern shape yields
`content[0].text`, the truthy legacy shape yields the `completion` field,
and a body with neither field yields its serialisation without throwing. -/
theorem extractPRDescription_shape_fallback_witness :
    extractPRDescription
        (Json.obj [("content", Json.arr [Json.obj [("text", Json.str "Modern body text")]])])
      = .ok (some (.str "Modern body text"))
    ∧ extractPRDescription (Json.obj [("completion", Json.str "Legacy body text")])
      = .ok (some (.str "Legacy body text"))
    ∧ extractPRDescription (Json.obj [("stop_reason", Json.str "end_turn")])
      = .ok (some (.str "\x7b\"stop_reason\":\"end_turn\"\x7d")) := by
  refine ⟨?_, ?_, ?_⟩
  · have h := (extractPRDescription_shape_fallback
        (Json.obj [("content", Json.arr [Json.obj [("text", Json.str "Modern body text")]])])).1
      (Json.obj [("text", Json.str "Modern body text")]) [] rfl rfl
    rw [h]; rfl
  · exact (extractPRDescription_shape_fallback
        (Json.obj [("completion", Json.str "Legacy body text")])).2.2.1
      rfl (Json.str "Legacy body text") rfl rfl
  · exact (extractPRDescription_shape_fallback
        (Json.obj [("stop_reason", Json.str "end_turn")])).2.2.2 rfl rfl

/-- Fixed generation parameters of one provider invocation site:
temperature, nucleus-sampling top-p, and the token-count ceiling. -/
structure GenParams where
  temperature : Rat
  topP : Rat
  maxTokens : Nat
deriving DecidableEq, Repr

/-- The generation parameters of `AIService.generatePRDescription`'s
`generateText` call (`src/aiService.ts` lines 61-67):
`maxTokens: 2000, temperature: 0.5, topP: 0.9`. -/
def AIService.genParams : GenParams :=
  { temperature := 0.5, topP := 0.9, maxTokens := 2000 }

/-- The generation parameters of `AWSBedrockService.generatePRDescription`'s
`generateText` call (`src/aiService.ts` lines 237-239):
`temperature: 0.5, top_p: 0.9, max_tokens: 2000`. -/
def AWSBedrockService.genParams : GenParams :=
  { temperature := 0.5, topP := 0.9, maxTokens := 2000 }

/-- The generation parameters of `GoogleGeminiService.generatePRDescription`'s
`generateText` call (`src/aiService.ts` lines 318-320):
`temperature: 0.7, top_p: 0.9, max_tokens: 2000`. -/
def GoogleGeminiService.genParams : GenParams :=
  { temperature := 0.7, topP := 0.9, maxTokens := 2000 }

/-- The generation parameters of the standalone Bedrock test script's
request body (`src/unnamed/part_000` lines 72-77):
`max_tokens_to_sample: 4000, temperature: 0.7, top_p: 0.9`. -/
def testBedrockLegacy_genParams : GenParams :=
  { temperature := 0.7, topP := 0.9, maxTokens := 4000 }

/-- The generation parameters of the AWS-SDK Bedrock test script's request
body (`src/unnamed/part_001` lines 106-117):
`max_tokens: 2000, temperature: 0.7, top_p: 0.9`. -/
def testBedrockSdk_genParams : GenParams :=
  { temperature := 0.7, topP := 0.9, maxTokens := 2000 }

/-- The options object of the Copilot `sendRequest` call
(`src/unnamed/part_007` line 173): the empty literal — no generation
parameters are supplied for the local-capability backend. -/
def CopilotAIService.sendRequestOptions : Option GenParams := none

/-- A site conforms to the claimed fixed parameters: temperature in
[0.5, 0.7], top-p 0.9, token ceiling 2000. -/
def conformingParams (p : GenParams) : Prop :=
  0.5 ≤ p.temperature ∧ p.temperature ≤ 0.7 ∧ p.topP = 0.9 ∧ p.maxTokens = 2000

/-- Counterexample to C6 as stated: the standalone Bedrock test script's
invocation uses a token-count ceiling of 4000, not approximately 2000 (every
other site uses exactly 2000). -/
theorem testBedrock_token_ceiling_counterexample :
    testBedrockLegacy_genParams.maxTokens = 4000
    ∧ testBedrockLegacy_genParams.maxTokens ≠ 2000 := by
  decide

/-- Claim C6 (amended): every cloud adapter invocation uses fixed,
non-user-configurable generation parameters — a temperature constant in
[0.5, 0.7] and a top-p constant of 0.9 at every site, with a token-count
ceiling of 2000 at every extension adapter site; the standalone Bedrock
test script alone uses a ceiling of 4000, and the local Copilot adapter
passes no explicit generation parameters. -/
theorem generation_params_fixed :
    conformingParams AIService.genParams
    ∧ conformingParams AWSBedrockService.genParams
    ∧ conformingParams GoogleGeminiService.genParams
    ∧ conformingParams testBedrockSdk_genParams
    ∧ (0.5 ≤ testBedrockLegacy_genParams.temperature
        ∧ testBedrockLegacy_genParams.temperature ≤ 0.7
        ∧ testBedrockLegacy_genParams.topP = 0.9
        ∧ testBedrockLegacy_genParams.maxTokens = 4000)
    ∧ ¬ conformingParams testBedrockLegacy_genParams
    ∧ CopilotAIService.sendRequestOptions = none := by
  refine ⟨?_, ?_, ?_, ?_, ?_, ?_, rfl⟩ <;>
    simp [conformingParams, AIService.genParams, AWSBedrockService.genParams,
      GoogleGeminiService.genParams, testBedrockSdk_genParams,
      testBedrockLegacy_genParams] <;> norm_num

/-- A failure of the Copilot `sendRequest` call: a
`vscode.LanguageModelError` carrying its `code` and `message`, or any other
thrown error carrying its message. -/
inductive CopilotFailure where
  | languageModelError (code : String) (message : String)
  | genericError (message : String)
deriving DecidableEq, Repr

/-- The code of `vscode.LanguageModelError.NotFound()` (host editor API). -/
def copilotNotFoundCode : String := "NotFound"

/-- The code of `vscode.LanguageModelError.Blocked()` (host editor API). -/
def copilotBlockedCode : String := "Blocked"

/-- The code of `vscode.LanguageModelError.NoPermissions()` (host editor
API). -/
def copilotNoPermissionsCode : String := "NoPermissions"

/-- The catch-block of `CopilotAIService.generatePRDescription`
(`src/unnamed/part_007` lines 185-200): a `LanguageModelError` whose code
matches model-not-found, content-blocked or no-permissions is mapped to its
dedicated user-facing message; anything else is wrapped with the generic
prefix. -/
def copilotErrorMessage : CopilotFailure → String
  | .languageModelError code message =>
    if code = copilotNotFoundCode then
      "Copilot model not found. Please ensure you have an active GitHub Copilot subscription."
    else if code = copilotBlockedCode then
      "Request was blocked by Copilot. The content may have triggered safety filters."
    else if code = copilotNoPermissionsCode then
      "No permissions to access Copilot. Please ensure you have an active GitHub Copilot subscription."
    else
      "Failed to generate PR description with Copilot: " ++ message
  | .genericError message =>
    "Failed to generate PR description with Copilot: " ++ message

/-- Claim C8: each of the three host-capability failure categories of the
Copilot adapter — model-not-found, content-blocked-by-safety-filter, and
no-permission — is mapped to a user-facing error message, and the three
messages are pairwise distinct (for any underlying error messages). -/
theorem copilot_error_messages_distinct (m1 m2 m3 : String) :
    copilotErrorMessage (.languageModelError copilotNotFoundCode m1)
      = "Copilot model not found. Please ensure you have an active GitHub Copilot subscription."
    ∧ copilotErrorMessage (.languageModelError copilotBlockedCode m2)
      = "Request was blocked by Copilot. The content may have triggered safety filters."
    ∧ copilotErrorMessage (.languageModelError copilotNoPermissionsCode m3)
      = "No permissions to access Copilot. Please ensure you have an active GitHub Copilot subscription."
    ∧ copilotErrorMessage (.languageModelError copilotNotFoundCode m1)
      ≠ copilotErrorMessage (.languageModelError copilotBlockedCode m2)
    ∧ copilotErrorMessage (.languageModelError copilotBlockedCode m2)
      ≠ copilotErrorMessage (.languageModelError copilotNoPermissionsCode m3)
    ∧ copilotErrorMessage (.languageModelError copilotNotFoundCode m1)
      ≠ copilotErrorMessage (.languageModelError copilotNoPermissionsCode m3) := by
  have h1 : copilotErrorMessage (.languageModelError copilotNotFoundCode m1)
      = "Copilot model not found. Please ensure you have an active GitHub Copilot subscription." := rfl
  have h2 : copilotErrorMessage (.languageModelError copilotBlockedCode m2)
      = "Request was blocked by Copilot. The content may have triggered safety filters." := rfl
  have h3 : copilotErrorMessage (.languageModelError copilotNoPermissionsCode m3)
      = "No permissions to access Copilot. Please ensure you have an active GitHub Copilot subscription." := rfl
  refine ⟨h1, h2, h3, ?_, ?_, ?_⟩
  · rw [h1, h2]; decide
  · rw [h2, h3]; decide
  · rw [h1, h3]; decide

/-- The streaming accumulation loop of
`CopilotAIService.generatePRDescription` (`src/unnamed/part_007` lines
176-179): `let result = ''; for await (const chunk of response.text)
result += chunk`. -/
def CopilotAIService.accumulateStream (chunks : List String) : String :=
  chunks.foldl (fun result chunk => result ++ chunk) ""

/-- `CopilotAIService.generatePRDescription` (`src/unnamed/part_007` lines
157-201): build the prompt, send the request, concatenate the streamed text
fragments in arrival order, and return the trimmed result; a thrown failure
is mapped through the catch-block's message mapping. -/
def CopilotAIService.generatePRDescription
    (sendRequest : String → Except CopilotFailure (List String))
    (gitDiff template : String) : Except String String :=
  match sendRequest (createPrompt gitDiff template) with
  | .ok chunks => .ok (jsTrim (CopilotAIService.accumulateStream chunks))
  | .error e => .error (copilotErrorMessage e)

/-- A stubbed Copilot stream delivering a fragment with trailing
whitespace. -/
def c9StreamStub : String → Except CopilotFailure (List String) :=
  fun _ => .ok ["Hello", " world "]

/-- Counterexample to C9 as stated: with fragments `Hello` and ` world `
arriving in order, the concatenation is `Hello world ` but
`generatePRDescription` returns the trimmed `Hello world`, so the final
returned text is not the concatenation of the fragments. -/
theorem copilot_stream_trim_counterexample :
    CopilotAIService.generatePRDescription c9StreamStub "diff" "template"
      = .ok "Hello world"
    ∧ CopilotAIService.accumulateStream ["Hello", " world "] = "Hello world "
    ∧ ("Hello world" : String) ≠ "Hello world " :=
  ⟨rfl, rfl, by decide⟩

lemma foldl_append_init (cs : List String) :
    ∀ init : String,
      cs.foldl (fun result chunk => result ++ chunk) init
        = init ++ cs.foldl (fun result chunk => result ++ chunk) "" := by
  induction cs with
  | nil => intro init; simp [String.append_empty]
  | cons a as ih =>
    intro init
    simp only [List.foldl_cons]
    rw [ih (init ++ a), ih ("" ++ a), String.empty_append, String.append_assoc]

/-- Claim C9 (amended): for every finite sequence of text fragments
delivered by the streaming response, the text returned by
`generatePRDescription` is the concatenation of the fragments in arrival
order with leading and trailing whitespace trimmed (`result.trim()`); apart
from that boundary trim, no fragment is reordered, dropped or deduplicated
— the accumulator satisfies the concatenation recurrences exactly. -/
theorem copilot_stream_concatenation
    (sendRequest : String → Except CopilotFailure (List String))
    (gitDiff template : String) (chunks : List String)
    (h : sendRequest (createPrompt gitDiff template) = .ok chunks) :
    CopilotAIService.generatePRDescription sendRequest gitDiff template
      = .ok (jsTrim (CopilotAIService.accumulateStream chunks))
    ∧ CopilotAIService.accumulateStream [] = ""
    ∧ (∀ c cs, CopilotAIService.accumulateStream (c :: cs)
        = c ++ CopilotAIService.accumulateStream cs) := by
  refine ⟨by simp [CopilotAIService.generatePRDescription, h], rfl, ?_⟩
  intro c cs
  unfold CopilotAIService.accumulateStream
  simp only [List.foldl_cons]
  rw [foldl_append_init cs ("" ++ c), String.empty_append]

/-- A stubbed Copilot stream delivering two fragments with no boundary
whitespace. -/
def c9WitnessStub : String → Except CopilotFailure (List String) :=
  fun _ => .ok ["## Summary", "\nAdds a feature."]

/-- Witness for C9 at concrete inputs: the returned text is the trimmed
in-order concatenation of the two streamed fragments. -/
theorem copilot_stream_concatenation_witness :
    CopilotAIService.generatePRDescription c9WitnessStub "diff" "template"
      = .ok (jsTrim (CopilotAIService.accumulateStream ["## Summary", "\nAdds a feature."]))
    ∧ CopilotAIService.generatePRDescription c9WitnessStub "diff" "template"
      = .ok "## Summary\nAdds a feature." := by
  have h := copilot_stream_concatenation c9WitnessStub "diff" "template"
    ["## Summary", "\nAdds a feature."] rfl
  exact ⟨h.1, by rw [h.1]; rfl⟩
